import Mathlib

/-!
# OgreRenderer: the renderer adapter of viper

A shallow embedding of `Graphics/OgreRenderer.cpp`.  The adapter is glue code over
the Ogre and MyGUI engines, the event manager and the logger; what the source
decides is *which* calls are made, in *which order*, with *which arguments*, and how
the four member fields change.  The embedding therefore keeps

* the four fields of the object (`_root`, `_gui`, `_badFactory`, `_isInitialized`),
  pointers being natural numbers with `0` the null pointer, as in the source;
* a chronological trace of every call the adapter makes on a collaborator, and of
  every exception the adapter itself raises;
* an allocation counter, so that every constructed object gets a fresh non-null
  address.

What the engines answer is not decided by this file of the repository; it is an
explicit parameter (`Env`): which engine call throws, whether the window is closed,
what the resource manifest contains.
-/

namespace Viper

/-! ## Data model -/

/-- Event kinds used by the adapter (the five input kinds it listens to and the quit
event it publishes). -/
inductive EventType
  | INPUT_MOUSE_PRESSED
  | INPUT_MOUSE_MOVED
  | INPUT_MOUSE_RELEASED
  | INPUT_KEY_DOWN
  | INPUT_KEY_UP
  | GAME_QUIT
  deriving DecidableEq, Repr

/-- Exceptions that can leave a member function.  `ScreenDimensionsException` and
`UnInitializedException` are raised by the adapter; `EngineException` stands for any
exception thrown by an engine call and passed through untouched (the source has no
`try` block).  Constructing an exception object is taken to be a plain value
construction, with no call on a collaborator. -/
inductive Exn
  | ScreenDimensionsException
  | UnInitializedException (what : String)
  | EngineException
  deriving DecidableEq, Repr

/-- One entry of the call trace: a call made by the adapter on a collaborator (the
event manager, the logger, the Ogre objects, the MyGUI object), with the pointer it
is made on and its arguments, or an exception raised by the adapter itself. -/
inductive Call
  -- EventManager
  | RemoveEventListener (t : EventType)
  | AddEventListener (t : EventType)
  | QueueEvent (t : EventType)
  -- Logger
  | Fatal (msg : String)
  -- a throw statement of the adapter
  | raise (e : Exn)
  -- Ogre
  | newRoot (p : Nat)
  | destroyDefaultLog
  | createLog (name : String) (defaultLog debuggerOutput suppressFileOutput : Bool)
  | loadPlugin (root : Nat) (name : String)
  | newBadArchiveFactory (p : Nat)
  | addArchiveFactory (factory : Nat)
  | configLoad (path : String)
  | addResourceLocation (name locType : String)
  | initialiseAllResourceGroups
  | getAvailableRenderers (root : Nat)
  | setRenderSystem (root rs : Nat)
  | setConfigOption (rs : Nat) (key value : String)
  | rootInitialise (root : Nat) (autoCreateWindow : Bool) (title : String)
  | createSceneManager (root : Nat) (name : String)
  | createCamera (sceneManager : Nat) (name : String)
  | setPosition (camera : Nat) (x y z : Int)
  | lookAt (camera : Nat) (x y z : Int)
  | setNearClipDistance (camera : Nat)
  | getAutoCreatedWindow (root : Nat)
  | addViewport (window camera : Nat)
  | setBackgroundColour (viewport : Nat) (r g b : Int)
  | setAspectRatio (camera viewport : Nat)
  | getCustomAttribute (window : Nat) (name : String)
  | renderOneFrame (root : Nat)
  | isClosed (window : Nat)
  | rootShutdown (root : Nat)
  | deleteRoot (root : Nat)
  | deleteBadArchiveFactory (factory : Nat)
  -- MyGUI
  | newGui (p : Nat)
  | guiInitialise (gui window : Nat) (core : String)
  | hidePointer (gui : Nat)
  | injectMouseMove (gui : Nat) (x y z : Int)
  | injectMousePress (gui : Nat) (x y : Int) (button : Int)
  | injectMouseRelease (gui : Nat) (x y : Int) (button : Int)
  | injectKeyPress (gui : Nat) (key : Int)
  | injectKeyRelease (gui : Nat) (key : Int)
  | guiShutdown (gui : Nat)
  | deleteGui (gui : Nat)
  deriving DecidableEq, Repr

/-- The member fields of `OgreRenderer`.  Pointers are addresses, `0` is null. -/
structure OgreRenderer where
  _root : Nat
  _gui : Nat
  _badFactory : Nat
  _isInitialized : Bool
  deriving DecidableEq, Repr

/-- The adapter together with what surrounds it: the trace of calls made so far and
the number of objects constructed so far (the next object gets address `heap + 1`). -/
structure Sys where
  self : OgreRenderer
  trace : List Call
  heap : Nat
  deriving DecidableEq, Repr

/-- What the collaborators answer.  The instant of a call is the length of the trace
when it is made.
* `fails t c`: the engine call `c` made at instant `t` throws;
* `closed t`: `isClosed` asked at instant `t` answers true;
* `configPath`: the value of `Paths::GetConfigPath( )`;
* `resources`: the sections of `resources.cfg`, each with its settings multimap
  as (`first`, `second`) pairs;
* `renderSystem`: the first entry of the list `getAvailableRenderers` returns;
* `windowOf root`: the window `getAutoCreatedWindow` returns for `root`;
* `hwnd w`: the value `getCustomAttribute("WINDOW", ..)` stores for window `w`. -/
structure Env where
  fails : Nat → Call → Bool
  closed : Nat → Bool
  configPath : String
  resources : List (String × List (String × String))
  renderSystem : Nat
  windowOf : Nat → Nat
  hwnd : Nat → Nat

/-- Payload of a mouse event: `GetMouseState( ).X.abs`, `.Y.abs`, `.Z.abs` and
`GetMouseButtonId( )`. -/
structure MouseEventData where
  X_abs : Int
  Y_abs : Int
  Z_abs : Int
  MouseButtonId : Int
  deriving DecidableEq, Repr

/-- Payload of a key event: `GetKeyCode( )`. -/
structure KeyEventData where
  KeyCode : Int
  deriving DecidableEq, Repr

/-! ## Sequencing

A member function is a function from the system state to an outcome (a value, or the
exception that left the function) and the state at that point.  State changes made
before an exception is thrown are kept: the source has no `try` block and no
roll-back. -/

/-- A computation: outcome and resulting state. -/
abbrev M (α : Type) := Sys → Except Exn α × Sys

/-- Return a value, state unchanged. -/
def M.pure {α : Type} (a : α) : M α := fun s => (.ok a, s)

/-- Run `m`; when it returns normally continue with `f`, otherwise the exception
propagates with the state as `m` left it. -/
def M.bind {α β : Type} (m : M α) (f : α → M β) : M β := fun s =>
  match m s with
  | (.ok a, s1) => f a s1
  | (.error e, s1) => (.error e, s1)

instance : Monad M where
  pure := M.pure
  bind := M.bind

/-- Append an entry to the trace. -/
def Sys.log (s : Sys) (c : Call) : Sys := { s with trace := s.trace ++ [c] }

/-- A call that always returns: the event manager, the logger, plain getters, and the
tear-down calls of the destructor. -/
def note (c : Call) : M Unit := fun s => (.ok (), s.log c)

/-- An engine call: recorded, and throws when the environment says so. -/
def call (env : Env) (c : Call) : M Unit := fun s =>
  if env.fails s.trace.length c then (.error .EngineException, s.log c)
  else (.ok (), s.log c)

/-- A new-expression: the constructor is an engine call on the fresh address
`heap + 1`; when it throws nothing is allocated. -/
def construct (env : Env) (mk : Nat → Call) : M Nat := fun s =>
  if env.fails s.trace.length (mk (s.heap + 1)) then
    (.error .EngineException, s.log (mk (s.heap + 1)))
  else (.ok (s.heap + 1), { (s.log (mk (s.heap + 1))) with heap := s.heap + 1 })

/-- An object the engine creates and returns a pointer to (scene manager, camera,
viewport): an engine call whose result is a fresh address. -/
def create (env : Env) (c : Call) : M Nat := fun s =>
  if env.fails s.trace.length c then (.error .EngineException, s.log c)
  else (.ok (s.heap + 1), { (s.log c) with heap := s.heap + 1 })

/-- A throw statement of the adapter. -/
def raise {α : Type} (e : Exn) : M α := fun s => (.error e, s.log (.raise e))

/-- Read the member fields. -/
def getSelf : M OgreRenderer := fun s => (.ok s.self, s)

/-- Assign member fields. -/
def modifySelf (f : OgreRenderer → OgreRenderer) : M Unit := fun s =>
  (.ok (), { s with self := f s.self })

/-- A delete-expression: no effect on a null pointer, otherwise the recorded
release of the object. -/
def delete (mk : Nat → Call) (p : Nat) : M Unit :=
  if p = 0 then M.pure () else note (mk p)

/-! ## The member functions of `OgreRenderer` -/

/-- The constructor.  Modelled from the spec: the constructor is declared in
`OgreRenderer.h`, which is not among the sources; the spec's Uninitialized state has
both handles null, and the destructor's null tests rely on it. -/
def OgreRenderer.new : OgreRenderer :=
  { _root := 0, _gui := 0, _badFactory := 0, _isInitialized := false }

/-- A freshly constructed adapter in a world where nothing has happened yet. -/
def Sys.fresh : Sys := { self := OgreRenderer.new, trace := [], heap := 0 }

/-- `OgreRenderer::~OgreRenderer`. -/
def destructor : M Unit := do
  note (.RemoveEventListener .INPUT_MOUSE_PRESSED)
  note (.RemoveEventListener .INPUT_MOUSE_MOVED)
  note (.RemoveEventListener .INPUT_MOUSE_RELEASED)
  note (.RemoveEventListener .INPUT_KEY_DOWN)
  note (.RemoveEventListener .INPUT_KEY_UP)
  if (← getSelf)._gui ≠ 0 then
    note (.guiShutdown (← getSelf)._gui)
    delete .deleteGui (← getSelf)._gui
    modifySelf fun r => { r with _gui := 0 }
  if (← getSelf)._root ≠ 0 then
    note (.rootShutdown (← getSelf)._root)
    delete .deleteRoot (← getSelf)._root
    modifySelf fun r => { r with _root := 0 }
  delete .deleteBadArchiveFactory (← getSelf)._badFactory
  modifySelf fun r => { r with _badFactory := 0 }

/-- `OgreRenderer::GetGui`. -/
def GetGui : M Nat := do
  if !(← getSelf)._isInitialized then
    let e := Exn.UnInitializedException "OgreRenderer::GetGui - Renderer isn't initialized"
    note (.Fatal "OgreRenderer::GetGui - Renderer isn't initialized")
    raise e
  return (← getSelf)._gui

/-- The inner loop of `LoadResources`: one `addResourceLocation( i->second, i->first )`
for each entry of a section's settings. -/
def addSettings (env : Env) : List (String × String) → M Unit
  | [] => M.pure ()
  | i :: rest => do
    call env (.addResourceLocation i.2 i.1)
    addSettings env rest

/-- The outer loop of `LoadResources` over the sections of the file. -/
def addSections (env : Env) : List (String × List (String × String)) → M Unit
  | [] => M.pure ()
  | section_ :: rest => do
    addSettings env section_.2
    addSections env rest

/-- `OgreRenderer::LoadResources`. -/
def LoadResources (env : Env) : M Unit := do
  call env (.configLoad (env.configPath ++ "/resources.cfg"))
  addSections env env.resources

/-- The integer a `bool` is promoted to in a comparison with an `int`. -/
def boolToInt (b : Bool) : Int := if b then 1 else 0

/-- The text built in the string stream `videoModeDesc`:
`width << " x " << height << " @ 32-bit colour"`. -/
def videoModeDesc (width height : Int) : String :=
  toString width ++ " x " ++ toString height ++ " @ 32-bit colour"

/-- `OgreRenderer::Initialize`. -/
def Initialize (env : Env) (width height : Int) (fullScreen : Bool) : M Unit := do
  -- Ogre Init
  if width < 1 ∨ height < 1 ∨ boolToInt fullScreen < 0 then
    raise .ScreenDimensionsException
  let root ← construct env .newRoot
  modifySelf fun r => { r with _root := root }
  call env .destroyDefaultLog
  call env (.createLog "default" true false true)
  call env (.loadPlugin (← getSelf)._root "RenderSystem_Direct3D9_d")
  let badFactory ← construct env .newBadArchiveFactory
  modifySelf fun r => { r with _badFactory := badFactory }
  call env (.addArchiveFactory (← getSelf)._badFactory)
  LoadResources env
  call env .initialiseAllResourceGroups
  note (.getAvailableRenderers (← getSelf)._root)
  let renderSystem := env.renderSystem
  call env (.setRenderSystem (← getSelf)._root renderSystem)
  call env (.setConfigOption renderSystem "Full Screen" (if fullScreen then "Yes" else "No"))
  call env (.setConfigOption renderSystem "Video Mode" (videoModeDesc width height))
  call env (.rootInitialise (← getSelf)._root true "Human View")
  let sceneManager ← create env (.createSceneManager (← getSelf)._root "default")
  let camera ← create env (.createCamera sceneManager "default camera")
  call env (.setPosition camera 0 20 100)
  call env (.lookAt camera 0 0 0)
  call env (.setNearClipDistance camera)
  note (.getAutoCreatedWindow (← getSelf)._root)
  let viewPort ← create env (.addViewport (env.windowOf (← getSelf)._root) camera)
  call env (.setBackgroundColour viewPort 0 0 0)
  call env (.setAspectRatio camera viewPort)
  -- MyGUI
  let gui ← construct env .newGui
  modifySelf fun r => { r with _gui := gui }
  note (.getAutoCreatedWindow (← getSelf)._root)
  call env (.guiInitialise (← getSelf)._gui (env.windowOf (← getSelf)._root) "gui/core/core.xml")
  call env (.hidePointer (← getSelf)._gui)
  -- Event Listeners
  note (.AddEventListener .INPUT_MOUSE_PRESSED)
  note (.AddEventListener .INPUT_MOUSE_MOVED)
  note (.AddEventListener .INPUT_MOUSE_RELEASED)
  note (.AddEventListener .INPUT_KEY_DOWN)
  note (.AddEventListener .INPUT_KEY_UP)
  modifySelf fun r => { r with _isInitialized := true }

/-- `OgreRenderer::GetHwnd`. -/
def GetHwnd (env : Env) : M Nat := do
  if !(← getSelf)._isInitialized then
    let e := Exn.UnInitializedException "OgreRenderer::GetHwnd - Renderer isn't initialized"
    note (.Fatal "OgreRenderer::GetHwnd - Renderer isn't initialized")
    raise e
  note (.getAutoCreatedWindow (← getSelf)._root)
  note (.getCustomAttribute (env.windowOf (← getSelf)._root) "WINDOW")
  return env.hwnd (env.windowOf (← getSelf)._root)

/-- `OgreRenderer::Render`. -/
def Render (env : Env) : M Unit := do
  if !(← getSelf)._isInitialized then
    let e := Exn.UnInitializedException "OgreRenderer::Render - Renderer isn't initialized"
    note (.Fatal "OgreRenderer::Render - Renderer isn't initialized")
    raise e
  call env (.renderOneFrame (← getSelf)._root)

/-- The answer of `isClosed( )` on the window, asked now. -/
def isClosed (env : Env) (window : Nat) : M Bool := fun s =>
  (.ok (env.closed s.trace.length), s.log (.isClosed window))

/-- `OgreRenderer::Update`. -/
def Update (env : Env) : M Unit := do
  if !(← getSelf)._isInitialized then
    let e := Exn.UnInitializedException "OgreRenderer::Update - Renderer isn't initialized"
    note (.Fatal "OgreRenderer::Update - Renderer isn't initialized")
    raise e
  note (.getAutoCreatedWindow (← getSelf)._root)
  if ← isClosed env (env.windowOf (← getSelf)._root) then
    note (.QueueEvent .GAME_QUIT)

/-- Modelled from the spec: the declaration of `MyGUI::MouseButton` is not among the
sources.  The cast `( MyGUI::MouseButton ) id` is a cast between enumerations, which
keeps the numeric value; the spec has the forwarded parameters match the fields of
the source event. -/
def toMouseButton (id : Int) : Int := id

/-- Modelled from the spec: the declaration of `MyGUI::KeyCode` is not among the
sources.  The cast `( MyGUI::KeyCode ) code` is a cast between enumerations, which
keeps the numeric value; the spec has the forwarded parameters match the fields of
the source event. -/
def toKeyCode (code : Int) : Int := code

/-- `OgreRenderer::OnMouseMoved`, on the event's mouse data. -/
def OnMouseMoved (env : Env) (eventData : MouseEventData) : M Unit := do
  call env (.injectMouseMove (← getSelf)._gui eventData.X_abs eventData.Y_abs eventData.Z_abs)

/-- `OgreRenderer::OnMousePressed`, on the event's mouse data. -/
def OnMousePressed (env : Env) (eventData : MouseEventData) : M Unit := do
  call env (.injectMousePress (← getSelf)._gui eventData.X_abs eventData.Y_abs
    (toMouseButton eventData.MouseButtonId))

/-- `OgreRenderer::OnMouseReleased`, on the event's mouse data. -/
def OnMouseReleased (env : Env) (eventData : MouseEventData) : M Unit := do
  call env (.injectMouseRelease (← getSelf)._gui eventData.X_abs eventData.Y_abs
    (toMouseButton eventData.MouseButtonId))

/-- `OgreRenderer::OnKeyUp`, on the event's key data. -/
def OnKeyUp (env : Env) (eventData : KeyEventData) : M Unit := do
  call env (.injectKeyRelease (← getSelf)._gui (toKeyCode eventData.KeyCode))

/-- `OgreRenderer::OnKeyDown`, on the event's key data. -/
def OnKeyDown (env : Env) (eventData : KeyEventData) : M Unit := do
  call env (.injectKeyPress (← getSelf)._gui (toKeyCode eventData.KeyCode))

/-! ## Call sequences -/

/-- A call of one of the public member functions. -/
inductive Op
  | Initialize (width height : Int) (fullScreen : Bool)
  | Render
  | Update
  | GetGui
  | GetHwnd
  deriving DecidableEq, Repr

/-- The state after one call, whether it returned or threw. -/
def step (env : Env) (s : Sys) : Op → Sys
  | .Initialize width height fullScreen => (Initialize env width height fullScreen s).2
  | .Render => (Render env s).2
  | .Update => (Update env s).2
  | .GetGui => (GetGui s).2
  | .GetHwnd => (GetHwnd env s).2

/-- The state after a sequence of calls on a freshly constructed adapter. -/
def run (env : Env) (ops : List Op) : Sys := ops.foldl (step env) Sys.fresh

/-- The entries a computation adds to the trace of `s`. -/
def added {α : Type} (m : M α) (s : Sys) : List Call := (m s).2.trace.drop s.trace.length

/-- An environment in which no engine call throws and the window stays open. -/
def Env.quiet : Env :=
  { fails := fun _ _ => false, closed := fun _ => false, configPath := "cfg",
    resources := [("General", [("FileSystem", "media")])], renderSystem := 7,
    windowOf := fun r => r + 100, hwnd := fun w => w + 1000 }

/-! ## Vocabulary of the properties -/

/-- The calls `LoadResources` can make. -/
def Call.isResourceCall : Call → Bool
  | .configLoad _ => true
  | .addResourceLocation _ _ => true
  | _ => false

/-- An initialized adapter has both handles valid, a valid GUI handle comes with a
valid root handle, and every handle is the address of a constructed object. -/
def Inv (s : Sys) : Prop :=
  (s.self._isInitialized = true → s.self._root ≠ 0 ∧ s.self._gui ≠ 0) ∧
  (s.self._gui ≠ 0 → s.self._root ≠ 0) ∧
  s.self._root ≤ s.heap ∧ s.self._gui ≤ s.heap

/-- The outcome of `m` from `s` satisfies `Q` on normal return and `E` when an
exception leaves `m`. -/
def Post {α : Type} (m : M α) (s : Sys) (Q : α → Sys → Prop) (E : Exn → Sys → Prop) : Prop :=
  match m s with
  | (.ok a, s1) => Q a s1
  | (.error e, s1) => E e s1

/-- What a resource-loading loop can do: add resource calls to the trace, and either
return or let an engine exception through. -/
def ResourceOutcome (env : Env) (m : M Unit) (s : Sys) : Prop :=
  ∃ R : List Call, (∀ c ∈ R, c.isResourceCall = true) ∧
    (m s).2 = { s with trace := s.trace ++ R } ∧
    ((m s).1 = .ok () ∨
      ((m s).1 = .error .EngineException ∧ ∃ t c, env.fails t c = true))

/-- An environment in which the render-system plugin cannot be loaded: `loadPlugin`
throws, every other engine call returns. -/
def Env.pluginMissing : Env :=
  { Env.quiet with
    fails := fun _ c => match c with
      | .loadPlugin _ _ => true
      | _ => false }

/-- Recognises the setting of a render-system option. -/
def Call.isSetConfigOption : Call → Bool
  | .setConfigOption _ _ _ => true
  | _ => false

/-- The five `RemoveEventListener` calls of the destructor, in source order. -/
def removeListeners : List Call :=
  [ .RemoveEventListener .INPUT_MOUSE_PRESSED, .RemoveEventListener .INPUT_MOUSE_MOVED,
    .RemoveEventListener .INPUT_MOUSE_RELEASED, .RemoveEventListener .INPUT_KEY_DOWN,
    .RemoveEventListener .INPUT_KEY_UP ]

/-- What `isClosed( )` answers during an `Update` call started in state `s`: the
question is asked one trace entry after the start of the call. -/
def closedDuringUpdate (env : Env) (s : Sys) : Bool := env.closed (s.trace.length + 1)

/-- The quit event `Update` queues. -/
def quitEvent : Call := .QueueEvent .GAME_QUIT

/-- A state in which `Initialize` was aborted after the render root was constructed:
the root handle is set, the GUI handle is still null. -/
def Sys.aborted : Sys :=
  { self := { _root := 1, _gui := 0, _badFactory := 0, _isInitialized := false },
    trace := [], heap := 1 }

/-- An environment in which no engine call throws and the window is closed. -/
def Env.windowClosed : Env := { Env.quiet with closed := fun _ => true }

/-- Both handles null and the adapter not initialized, or both valid and the adapter
initialized. -/
def Clean (r : OgreRenderer) : Prop :=
  (r._root = 0 ∧ r._gui = 0 ∧ r._isInitialized = false) ∨
  (r._root ≠ 0 ∧ r._gui ≠ 0 ∧ r._isInitialized = true)

/-- The number a list of decimal digit characters denotes, most significant first. -/
def decimalValue (cs : List Char) : Nat :=
  cs.foldl (fun acc c => 10 * acc + (c.toNat - 48)) 0

/-- The calls of a successful `Initialize` up to `LoadResources`, from allocation
counter `h`. -/
def initCallsBefore (h : Nat) : List Call :=
  [ .newRoot (h + 1), .destroyDefaultLog, .createLog "default" true false true,
    .loadPlugin (h + 1) "RenderSystem_Direct3D9_d", .newBadArchiveFactory (h + 2),
    .addArchiveFactory (h + 2) ]

/-- The calls of a successful `Initialize` after `LoadResources`, from allocation
counter `h`. -/
def initCallsAfter (env : Env) (width height : Int) (fullScreen : Bool) (h : Nat) : List Call :=
  [ .initialiseAllResourceGroups, .getAvailableRenderers (h + 1),
    .setRenderSystem (h + 1) env.renderSystem,
    .setConfigOption env.renderSystem "Full Screen" (if fullScreen then "Yes" else "No"),
    .setConfigOption env.renderSystem "Video Mode" (videoModeDesc width height),
    .rootInitialise (h + 1) true "Human View",
    .createSceneManager (h + 1) "default", .createCamera (h + 3) "default camera",
    .setPosition (h + 4) 0 20 100, .lookAt (h + 4) 0 0 0, .setNearClipDistance (h + 4),
    .getAutoCreatedWindow (h + 1), .addViewport (env.windowOf (h + 1)) (h + 4),
    .setBackgroundColour (h + 5) 0 0 0, .setAspectRatio (h + 4) (h + 5),
    .newGui (h + 6), .getAutoCreatedWindow (h + 1),
    .guiInitialise (h + 6) (env.windowOf (h + 1)) "gui/core/core.xml", .hidePointer (h + 6),
    .AddEventListener .INPUT_MOUSE_PRESSED, .AddEventListener .INPUT_MOUSE_MOVED,
    .AddEventListener .INPUT_MOUSE_RELEASED, .AddEventListener .INPUT_KEY_DOWN,
    .AddEventListener .INPUT_KEY_UP ]

end Viper

namespace Viper

/-! ## Unfolding the sequencing -/

@[simp] theorem bind_eq {α β : Type} (m : M α) (f : α → M β) : (m >>= f) = M.bind m f := rfl

@[simp] theorem pure_eq {α : Type} (a : α) : (pure a : M α) = M.pure a := rfl

@[simp] theorem pure_bind_apply {α β : Type} (a : α) (f : α → M β) (s : Sys) :
    M.bind (M.pure a) f s = f a s := rfl

@[simp] theorem pure_apply {α : Type} (a : α) (s : Sys) : (M.pure a : M α) s = (.ok a, s) := rfl

@[simp] theorem getSelf_bind {β : Type} (f : OgreRenderer → M β) (s : Sys) :
    M.bind getSelf f s = f s.self s := rfl

@[simp] theorem modifySelf_bind {β : Type} (g : OgreRenderer → OgreRenderer) (f : Unit → M β)
    (s : Sys) : M.bind (modifySelf g) f s = f () { s with self := g s.self } := rfl

@[simp] theorem modifySelf_apply (g : OgreRenderer → OgreRenderer) (s : Sys) :
    modifySelf g s = (.ok (), { s with self := g s.self }) := rfl

@[simp] theorem note_bind {β : Type} (c : Call) (f : Unit → M β) (s : Sys) :
    M.bind (note c) f s = f () (s.log c) := rfl

@[simp] theorem note_apply (c : Call) (s : Sys) : note c s = (.ok (), s.log c) := rfl

@[simp] theorem raise_bind {α β : Type} (e : Exn) (f : α → M β) (s : Sys) :
    M.bind (raise e) f s = (.error e, s.log (.raise e)) := rfl

@[simp] theorem raise_apply {α : Type} (e : Exn) (s : Sys) :
    (raise e : M α) s = (.error e, s.log (.raise e)) := rfl

theorem call_apply (env : Env) (c : Call) (s : Sys) :
    call env c s =
      if env.fails s.trace.length c then (.error .EngineException, s.log c)
      else (.ok (), s.log c) := rfl

theorem call_bind {β : Type} (env : Env) (c : Call) (f : Unit → M β) (s : Sys) :
    M.bind (call env c) f s =
      if env.fails s.trace.length c then (.error .EngineException, s.log c)
      else f () (s.log c) := by
  unfold M.bind call
  split_ifs <;> rfl

theorem construct_bind {β : Type} (env : Env) (mk : Nat → Call) (f : Nat → M β) (s : Sys) :
    M.bind (construct env mk) f s =
      if env.fails s.trace.length (mk (s.heap + 1)) then
        (.error .EngineException, s.log (mk (s.heap + 1)))
      else f (s.heap + 1) { (s.log (mk (s.heap + 1))) with heap := s.heap + 1 } := by
  unfold M.bind construct
  split_ifs <;> rfl

theorem create_bind {β : Type} (env : Env) (c : Call) (f : Nat → M β) (s : Sys) :
    M.bind (create env c) f s =
      if env.fails s.trace.length c then (.error .EngineException, s.log c)
      else f (s.heap + 1) { (s.log c) with heap := s.heap + 1 } := by
  unfold M.bind create
  split_ifs <;> rfl

theorem bind_apply {α β : Type} (m : M α) (f : α → M β) (s : Sys) :
    M.bind m f s =
      match (m s).1 with
      | .ok a => f a (m s).2
      | .error e => (.error e, (m s).2) := by
  unfold M.bind
  rcases h : m s with ⟨r, s1⟩
  cases r <;> rfl

@[simp] theorem log_self (s : Sys) (c : Call) : (s.log c).self = s.self := rfl
@[simp] theorem log_heap (s : Sys) (c : Call) : (s.log c).heap = s.heap := rfl
@[simp] theorem log_trace (s : Sys) (c : Call) : (s.log c).trace = s.trace ++ [c] := rfl

theorem boolToInt_nonneg (b : Bool) : ¬ boolToInt b < 0 := by
  cases b <;> simp [boolToInt]

/-! ## Outcome rules, one per kind of statement -/

theorem Post.after_pure {α β : Type} {a : α} {f : α → M β} {s : Sys} {Q : β → Sys → Prop}
    {E : Exn → Sys → Prop} (h : Post (f a) s Q E) : Post (M.bind (M.pure a) f) s Q E := h

theorem Post.after_getSelf {β : Type} {f : OgreRenderer → M β} {s : Sys} {Q : β → Sys → Prop}
    {E : Exn → Sys → Prop} (h : Post (f s.self) s Q E) : Post (M.bind getSelf f) s Q E := h

theorem Post.after_modifySelf {β : Type} {g : OgreRenderer → OgreRenderer} {f : Unit → M β}
    {s : Sys} {Q : β → Sys → Prop} {E : Exn → Sys → Prop}
    (h : Post (f ()) { s with self := g s.self } Q E) : Post (M.bind (modifySelf g) f) s Q E := h

theorem Post.last_modifySelf {g : OgreRenderer → OgreRenderer}
    {s : Sys} {Q : Unit → Sys → Prop} {E : Exn → Sys → Prop}
    (h : Q () { s with self := g s.self }) : Post (modifySelf g) s Q E := h

theorem Post.after_note {β : Type} {c : Call} {f : Unit → M β} {s : Sys} {Q : β → Sys → Prop}
    {E : Exn → Sys → Prop} (h : Post (f ()) (s.log c) Q E) : Post (M.bind (note c) f) s Q E := h

theorem Post.after_call {β : Type} {env : Env} {c : Call} {f : Unit → M β} {s : Sys}
    {Q : β → Sys → Prop} {E : Exn → Sys → Prop}
    (herr : env.fails s.trace.length c = true → E .EngineException (s.log c))
    (hok : Post (f ()) (s.log c) Q E) : Post (M.bind (call env c) f) s Q E := by
  unfold Post
  rw [Viper.call_bind]
  split_ifs with hf
  · exact herr hf
  · exact hok

theorem Post.after_construct {β : Type} {env : Env} {mk : Nat → Call} {f : Nat → M β} {s : Sys}
    {Q : β → Sys → Prop} {E : Exn → Sys → Prop}
    (herr : env.fails s.trace.length (mk (s.heap + 1)) = true →
      E .EngineException (s.log (mk (s.heap + 1))))
    (hok : Post (f (s.heap + 1)) { (s.log (mk (s.heap + 1))) with heap := s.heap + 1 } Q E) :
    Post (M.bind (construct env mk) f) s Q E := by
  unfold Post
  rw [Viper.construct_bind]
  split_ifs with hf
  · exact herr hf
  · exact hok

theorem Post.after_create {β : Type} {env : Env} {c : Call} {f : Nat → M β} {s : Sys}
    {Q : β → Sys → Prop} {E : Exn → Sys → Prop}
    (herr : env.fails s.trace.length c = true → E .EngineException (s.log c))
    (hok : Post (f (s.heap + 1)) { (s.log c) with heap := s.heap + 1 } Q E) :
    Post (M.bind (create env c) f) s Q E := by
  unfold Post
  rw [Viper.create_bind]
  split_ifs with hf
  · exact herr hf
  · exact hok

/-! ## `LoadResources` only touches the resource manager -/

theorem addSettings_spec (env : Env) (l : List (String × String)) (s : Sys) :
    ResourceOutcome env (addSettings env l) s := by
  induction l generalizing s with
  | nil => exact ⟨[], by simp, by simp [addSettings], Or.inl rfl⟩
  | cons i rest ih =>
    unfold ResourceOutcome
    simp only [addSettings, bind_eq, call_bind]
    split_ifs with hf
    · exact ⟨[.addResourceLocation i.2 i.1], by simp [Call.isResourceCall], rfl,
        Or.inr ⟨rfl, _, _, hf⟩⟩
    · obtain ⟨R, hR, hs, hr⟩ := ih (s.log (.addResourceLocation i.2 i.1))
      refine ⟨.addResourceLocation i.2 i.1 :: R, ?_, ?_, hr⟩
      · intro c hc
        rcases List.mem_cons.1 hc with rfl | hc
        · rfl
        · exact hR c hc
      · rw [hs]; simp [Sys.log]

theorem addSections_spec (env : Env) (l : List (String × List (String × String))) (s : Sys) :
    ResourceOutcome env (addSections env l) s := by
  induction l generalizing s with
  | nil => exact ⟨[], by simp, by simp [addSections], Or.inl rfl⟩
  | cons sec rest ih =>
    obtain ⟨R1, hR1, hs1, hr1⟩ := addSettings_spec env sec.2 s
    unfold ResourceOutcome
    simp only [addSections, bind_eq, bind_apply (addSettings env sec.2)]
    rw [hs1]
    rcases hr1 with hr1 | ⟨hr1, hf⟩
    · rw [hr1]
      obtain ⟨R2, hR2, hs2, hr2⟩ := ih { s with trace := s.trace ++ R1 }
      refine ⟨R1 ++ R2, ?_, ?_, hr2⟩
      · intro c hc
        rcases List.mem_append.1 hc with hc | hc
        · exact hR1 c hc
        · exact hR2 c hc
      · show (addSections env rest _).2 = _
        rw [hs2]; simp
    · rw [hr1]
      exact ⟨R1, hR1, rfl, Or.inr ⟨rfl, hf⟩⟩

theorem LoadResources_spec (env : Env) (s : Sys) :
    ResourceOutcome env (LoadResources env) s := by
  unfold ResourceOutcome
  simp only [LoadResources, bind_eq, call_bind]
  split_ifs with hf
  · exact ⟨[.configLoad (env.configPath ++ "/resources.cfg")], by simp [Call.isResourceCall],
      rfl, Or.inr ⟨rfl, _, _, hf⟩⟩
  · obtain ⟨R, hR, hs, hr⟩ := addSections_spec env env.resources
      (s.log (.configLoad (env.configPath ++ "/resources.cfg")))
    refine ⟨.configLoad (env.configPath ++ "/resources.cfg") :: R, ?_, ?_, hr⟩
    · intro c hc
      rcases List.mem_cons.1 hc with rfl | hc
      · rfl
      · exact hR c hc
    · rw [hs]; simp [Sys.log]

theorem Post.after_LoadResources {β : Type} {env : Env} {f : Unit → M β} {s : Sys}
    {Q : β → Sys → Prop} {E : Exn → Sys → Prop}
    (herr : ∀ R : List Call, (∀ c ∈ R, c.isResourceCall = true) →
      (∃ t c, env.fails t c = true) → E .EngineException { s with trace := s.trace ++ R })
    (hok : ∀ R : List Call, (∀ c ∈ R, c.isResourceCall = true) →
      Post (f ()) { s with trace := s.trace ++ R } Q E) :
    Post (M.bind (LoadResources env) f) s Q E := by
  obtain ⟨R, hR, hs, hr⟩ := LoadResources_spec env s
  unfold Post
  rw [bind_apply, hs]
  rcases hr with hr | ⟨hr, hf⟩
  · rw [hr]; exact hok R hR
  · rw [hr]; exact herr R hR hf

/-! ## What `Initialize` leaves behind -/

theorem starts_with_single {a : List Call} {c : Call} : ∃ T, a ++ [c] = a ++ c :: T :=
  ⟨[], rfl⟩

theorem starts_with_append {a x y : List Call} {c : Call} (h : ∃ T, x = a ++ c :: T) :
    ∃ T, x ++ y = a ++ c :: T := by
  obtain ⟨T, rfl⟩ := h
  exact ⟨T ++ y, by simp⟩

/-- Outcome of `Initialize` once the dimensions are accepted.  On normal return the
fields, the allocation counter and the trace are determined; when an engine call
throws, some call was made to fail by the environment and the state invariant is
kept. -/
theorem Initialize_post (env : Env) (width height : Int) (fullScreen : Bool) (s : Sys)
    (hw : 1 ≤ width) (hh : 1 ≤ height) :
    Post (Initialize env width height fullScreen) s
      (fun _ s1 =>
        s1.self = { _root := s.heap + 1, _gui := s.heap + 6, _badFactory := s.heap + 2,
                    _isInitialized := true } ∧
        s1.heap = s.heap + 6 ∧
        ∃ R : List Call, (∀ c ∈ R, c.isResourceCall = true) ∧
          s1.trace = s.trace ++ (initCallsBefore s.heap ++ R ++
            initCallsAfter env width height fullScreen s.heap))
      (fun e s1 => e = .EngineException ∧ (∃ t c, env.fails t c = true) ∧
        (Inv s → Inv s1) ∧ ∃ T, s1.trace = s.trace ++ .newRoot (s.heap + 1) :: T) := by
  have hc : ¬ (width < 1 ∨ height < 1 ∨ boolToInt fullScreen < 0) := by
    have := boolToInt_nonneg fullScreen
    omega
  simp only [Initialize, bind_eq, pure_eq, if_neg hc]
  apply Post.after_pure
  repeat' first
    | (apply Post.after_getSelf; dsimp only)
    | (apply Post.after_modifySelf; dsimp only)
    | (apply Post.after_note; simp only [Sys.log, List.append_assoc, List.singleton_append,
        List.cons_append, List.nil_append])
    | (apply Post.after_call <;> simp only [Sys.log, List.append_assoc, List.singleton_append,
        List.cons_append, List.nil_append])
    | (apply Post.after_construct <;> simp only [Sys.log, List.append_assoc,
        List.singleton_append, List.cons_append, List.nil_append])
    | (apply Post.after_create <;> simp only [Sys.log, List.append_assoc,
        List.singleton_append, List.cons_append, List.nil_append])
    | (apply Post.after_LoadResources <;> intro R hR <;> simp only [List.append_assoc,
        List.singleton_append, List.cons_append, List.nil_append])
    | (apply Post.last_modifySelf; dsimp only)
  all_goals first
    | (intro hf
       refine ⟨by first | rfl | trivial, by first | exact ⟨_, _, hf⟩ | exact hf, ?_, ⟨_, rfl⟩⟩
       rintro ⟨h1, h2, h3, h4⟩
       simp only [Inv]
       refine ⟨fun hi => ?_, ?_, ?_, ?_⟩
       · have := h1 hi
         omega
       all_goals omega)
    | (refine ⟨rfl, by omega, R, hR, ?_⟩
       simp [initCallsBefore, initCallsAfter])

theorem Initialize_rejects (env : Env) (width height : Int) (fullScreen : Bool) (s : Sys)
    (h : width < 1 ∨ height < 1) :
    Initialize env width height fullScreen s =
      (.error .ScreenDimensionsException, s.log (.raise .ScreenDimensionsException)) := by
  have hc : width < 1 ∨ height < 1 ∨ boolToInt fullScreen < 0 := by
    rcases h with h | h
    · exact Or.inl h
    · exact Or.inr (Or.inl h)
  simp only [Initialize, bind_eq, if_pos hc, raise_bind]

theorem Post.cases {α : Type} {m : M α} {s : Sys} {Q : α → Sys → Prop} {E : Exn → Sys → Prop}
    (h : Post m s Q E) :
    (∃ a, (m s).1 = .ok a ∧ Q a (m s).2) ∨ (∃ e, (m s).1 = .error e ∧ E e (m s).2) := by
  unfold Post at h
  rcases hr : m s with ⟨r, s1⟩
  rw [hr] at h
  cases r with
  | ok a => exact Or.inl ⟨a, rfl, h⟩
  | error e => exact Or.inr ⟨e, rfl, h⟩

theorem added_eq {α : Type} {m : M α} {s : Sys} {L : List Call}
    (h : (m s).2.trace = s.trace ++ L) : added m s = L := by
  simp [added, h]

theorem Inv_of_eq {s s1 : Sys} (hself : s1.self = s.self) (hheap : s1.heap = s.heap)
    (h : Inv s) : Inv s1 := by
  unfold Inv at *
  rw [hself, hheap]
  exact h

theorem Initialize_Inv (env : Env) (width height : Int) (fullScreen : Bool) (s : Sys)
    (hs : Inv s) : Inv (Initialize env width height fullScreen s).2 := by
  by_cases hbad : width < 1 ∨ height < 1
  · rw [Initialize_rejects env width height fullScreen s hbad]
    exact Inv_of_eq rfl rfl hs
  · rcases (Initialize_post env width height fullScreen s (by omega) (by omega)).cases with
      ⟨a, -, h1, h2, -⟩ | ⟨e, -, -, -, h, -⟩
    · simp only [Inv, h1, h2]
      omega
    · exact h hs

theorem Initialize_ok (env : Env) (width height : Int) (fullScreen : Bool) (s : Sys)
    (hok : (Initialize env width height fullScreen s).1 = .ok ()) :
    (1 ≤ width ∧ 1 ≤ height) ∧
    (Initialize env width height fullScreen s).2.self =
      { _root := s.heap + 1, _gui := s.heap + 6, _badFactory := s.heap + 2,
        _isInitialized := true } ∧
    (Initialize env width height fullScreen s).2.heap = s.heap + 6 ∧
    ∃ R : List Call, (∀ c ∈ R, c.isResourceCall = true) ∧
      added (Initialize env width height fullScreen) s =
        initCallsBefore s.heap ++ R ++ initCallsAfter env width height fullScreen s.heap := by
  by_cases hbad : width < 1 ∨ height < 1
  · rw [Initialize_rejects env width height fullScreen s hbad] at hok
    cases hok
  · rcases (Initialize_post env width height fullScreen s (by omega) (by omega)).cases with
      ⟨a, -, h1, h2, R, hR, h3⟩ | ⟨e, he, -⟩
    · exact ⟨by omega, h1, h2, R, hR, added_eq h3⟩
    · rw [he] at hok
      cases hok

theorem Initialize_quiet (env : Env) (hq : ∀ t c, env.fails t c = false)
    (width height : Int) (fullScreen : Bool) (s : Sys) (hw : 1 ≤ width) (hh : 1 ≤ height) :
    (Initialize env width height fullScreen s).1 = .ok () := by
  rcases (Initialize_post env width height fullScreen s hw hh).cases with
    ⟨a, ha, -⟩ | ⟨e, -, -, ⟨t, c, hf⟩, -⟩
  · exact ha
  · rw [hq] at hf
    cases hf

theorem Initialize_accepts (env : Env) (width height : Int) (fullScreen : Bool) (s : Sys)
    (hw : 1 ≤ width) (hh : 1 ≤ height) :
    (Initialize env width height fullScreen s).1 ≠ .error .ScreenDimensionsException ∧
    ∃ T, added (Initialize env width height fullScreen) s = .newRoot (s.heap + 1) :: T := by
  rcases (Initialize_post env width height fullScreen s hw hh).cases with
    ⟨a, ha, -, -, R, -, h3⟩ | ⟨e, he, rfl, -, -, T, hT⟩
  · refine ⟨by rw [ha]; simp, ?_⟩
    rw [added_eq h3]
    exact ⟨_, rfl⟩
  · refine ⟨by rw [he]; simp, T, added_eq hT⟩

/-! ## The guarded member functions -/

theorem GetGui_uninitialized (s : Sys) (h : s.self._isInitialized = false) :
    GetGui s =
      (.error (.UnInitializedException "OgreRenderer::GetGui - Renderer isn't initialized"),
        (s.log (.Fatal "OgreRenderer::GetGui - Renderer isn't initialized")).log
          (.raise (.UnInitializedException
            "OgreRenderer::GetGui - Renderer isn't initialized"))) := by
  simp [GetGui, h]

theorem GetHwnd_uninitialized (env : Env) (s : Sys) (h : s.self._isInitialized = false) :
    GetHwnd env s =
      (.error (.UnInitializedException "OgreRenderer::GetHwnd - Renderer isn't initialized"),
        (s.log (.Fatal "OgreRenderer::GetHwnd - Renderer isn't initialized")).log
          (.raise (.UnInitializedException
            "OgreRenderer::GetHwnd - Renderer isn't initialized"))) := by
  simp [GetHwnd, h]

theorem Render_uninitialized (env : Env) (s : Sys) (h : s.self._isInitialized = false) :
    Render env s =
      (.error (.UnInitializedException "OgreRenderer::Render - Renderer isn't initialized"),
        (s.log (.Fatal "OgreRenderer::Render - Renderer isn't initialized")).log
          (.raise (.UnInitializedException
            "OgreRenderer::Render - Renderer isn't initialized"))) := by
  simp [Render, h]

theorem Update_uninitialized (env : Env) (s : Sys) (h : s.self._isInitialized = false) :
    Update env s =
      (.error (.UnInitializedException "OgreRenderer::Update - Renderer isn't initialized"),
        (s.log (.Fatal "OgreRenderer::Update - Renderer isn't initialized")).log
          (.raise (.UnInitializedException
            "OgreRenderer::Update - Renderer isn't initialized"))) := by
  simp [Update, h]

theorem GetGui_initialized (s : Sys) (h : s.self._isInitialized = true) :
    GetGui s = (.ok s.self._gui, s) := by
  simp [GetGui, h]

theorem GetHwnd_initialized (env : Env) (s : Sys) (h : s.self._isInitialized = true) :
    GetHwnd env s =
      (.ok (env.hwnd (env.windowOf s.self._root)),
        (s.log (.getAutoCreatedWindow s.self._root)).log
          (.getCustomAttribute (env.windowOf s.self._root) "WINDOW")) := by
  simp [GetHwnd, h]

theorem Render_initialized (env : Env) (s : Sys) (h : s.self._isInitialized = true) :
    (Render env s).2 = s.log (.renderOneFrame s.self._root) := by
  simp only [Render, bind_eq, pure_eq, getSelf_bind, h]
  simp [call_apply]
  split_ifs <;> rfl

theorem isClosed_bind {β : Type} (env : Env) (w : Nat) (f : Bool → M β) (s : Sys) :
    M.bind (isClosed env w) f s = f (env.closed s.trace.length) (s.log (.isClosed w)) := rfl

theorem Update_initialized (env : Env) (s : Sys) (h : s.self._isInitialized = true) :
    Update env s =
      (.ok (),
        { s with trace := s.trace ++
            ([.getAutoCreatedWindow s.self._root, .isClosed (env.windowOf s.self._root)] ++
              if env.closed (s.trace.length + 1) then [.QueueEvent .GAME_QUIT] else []) }) := by
  simp only [Update, bind_eq, pure_eq, getSelf_bind, h]
  simp [isClosed_bind]
  split_ifs <;> simp [Sys.log]

theorem Render_keeps (env : Env) (s : Sys) :
    (Render env s).2.self = s.self ∧ (Render env s).2.heap = s.heap := by
  cases h : s.self._isInitialized
  · rw [Render_uninitialized env s h]; exact ⟨rfl, rfl⟩
  · rw [Render_initialized env s h]; exact ⟨rfl, rfl⟩

theorem Update_keeps (env : Env) (s : Sys) :
    (Update env s).2.self = s.self ∧ (Update env s).2.heap = s.heap := by
  cases h : s.self._isInitialized
  · rw [Update_uninitialized env s h]; exact ⟨rfl, rfl⟩
  · rw [Update_initialized env s h]; exact ⟨rfl, rfl⟩

theorem GetGui_keeps (s : Sys) :
    (GetGui s).2.self = s.self ∧ (GetGui s).2.heap = s.heap := by
  cases h : s.self._isInitialized
  · rw [GetGui_uninitialized s h]; exact ⟨rfl, rfl⟩
  · rw [GetGui_initialized s h]; exact ⟨rfl, rfl⟩

theorem GetHwnd_keeps (env : Env) (s : Sys) :
    (GetHwnd env s).2.self = s.self ∧ (GetHwnd env s).2.heap = s.heap := by
  cases h : s.self._isInitialized
  · rw [GetHwnd_uninitialized env s h]; exact ⟨rfl, rfl⟩
  · rw [GetHwnd_initialized env s h]; exact ⟨rfl, rfl⟩

/-! ## States reached by call sequences -/

theorem step_Inv (env : Env) (s : Sys) (op : Op) (h : Inv s) : Inv (step env s op) := by
  cases op with
  | Initialize width height fullScreen => exact Initialize_Inv env width height fullScreen s h
  | Render => exact Inv_of_eq (Render_keeps env s).1 (Render_keeps env s).2 h
  | Update => exact Inv_of_eq (Update_keeps env s).1 (Update_keeps env s).2 h
  | GetGui => exact Inv_of_eq (GetGui_keeps s).1 (GetGui_keeps s).2 h
  | GetHwnd => exact Inv_of_eq (GetHwnd_keeps env s).1 (GetHwnd_keeps env s).2 h

theorem foldl_step_Inv (env : Env) (ops : List Op) (s : Sys) (h : Inv s) :
    Inv (ops.foldl (step env) s) := by
  induction ops generalizing s with
  | nil => exact h
  | cons op rest ih => exact ih _ (step_Inv env s op h)

theorem fresh_Inv : Inv Sys.fresh := by
  simp [Inv, Sys.fresh, OgreRenderer.new]

theorem run_Inv (env : Env) (ops : List Op) : Inv (run env ops) :=
  foldl_step_Inv env ops _ fresh_Inv

/-! ## The destructor -/

theorem destructor_eq (s : Sys) :
    destructor s =
      (.ok (),
        { self := { _root := 0, _gui := 0, _badFactory := 0,
                    _isInitialized := s.self._isInitialized },
          trace := s.trace ++ (removeListeners ++
            ((if s.self._gui = 0 then [] else
                [.guiShutdown s.self._gui, .deleteGui s.self._gui]) ++
             ((if s.self._root = 0 then [] else
                [.rootShutdown s.self._root, .deleteRoot s.self._root]) ++
              (if s.self._badFactory = 0 then [] else
                [.deleteBadArchiveFactory s.self._badFactory])))),
          heap := s.heap }) := by
  by_cases hg : s.self._gui = 0 <;> by_cases hr : s.self._root = 0 <;>
    by_cases hb : s.self._badFactory = 0 <;>
    simp [destructor, delete, hg, hr, hb, Sys.log, removeListeners]

theorem destructor_added (s : Sys) :
    added destructor s = removeListeners ++
      ((if s.self._gui = 0 then [] else [.guiShutdown s.self._gui, .deleteGui s.self._gui]) ++
       ((if s.self._root = 0 then [] else
          [.rootShutdown s.self._root, .deleteRoot s.self._root]) ++
        (if s.self._badFactory = 0 then [] else
          [.deleteBadArchiveFactory s.self._badFactory]))) := by
  apply added_eq
  rw [destructor_eq]

theorem destructor_count_deleteGui (s : Sys) (p : Nat) :
    (added destructor s).count (.deleteGui p) = if p = s.self._gui ∧ p ≠ 0 then 1 else 0 := by
  rw [destructor_added]
  rcases eq_or_ne p s.self._gui with hp | hp
  · subst hp
    by_cases hg : s.self._gui = 0 <;> by_cases hr : s.self._root = 0 <;>
      by_cases hb : s.self._badFactory = 0 <;>
      simp [removeListeners, hg, hr, hb, List.count_cons]
  · have hp2 := hp.symm
    by_cases hg : s.self._gui = 0 <;> by_cases hr : s.self._root = 0 <;>
      by_cases hb : s.self._badFactory = 0 <;>
      simp [removeListeners, hg, hr, hb, hp, hp2, List.count_cons]

theorem destructor_count_deleteRoot (s : Sys) (p : Nat) :
    (added destructor s).count (.deleteRoot p) = if p = s.self._root ∧ p ≠ 0 then 1 else 0 := by
  rw [destructor_added]
  rcases eq_or_ne p s.self._root with hp | hp
  · subst hp
    by_cases hg : s.self._gui = 0 <;> by_cases hr : s.self._root = 0 <;>
      by_cases hb : s.self._badFactory = 0 <;>
      simp [removeListeners, hg, hr, hb, List.count_cons]
  · have hp2 := hp.symm
    by_cases hg : s.self._gui = 0 <;> by_cases hr : s.self._root = 0 <;>
      by_cases hb : s.self._badFactory = 0 <;>
      simp [removeListeners, hg, hr, hb, hp, hp2, List.count_cons]

theorem destructor_count_guiShutdown (s : Sys) (p : Nat) :
    (added destructor s).count (.guiShutdown p) = if p = s.self._gui ∧ p ≠ 0 then 1 else 0 := by
  rw [destructor_added]
  rcases eq_or_ne p s.self._gui with hp | hp
  · subst hp
    by_cases hg : s.self._gui = 0 <;> by_cases hr : s.self._root = 0 <;>
      by_cases hb : s.self._badFactory = 0 <;>
      simp [removeListeners, hg, hr, hb, List.count_cons]
  · have hp2 := hp.symm
    by_cases hg : s.self._gui = 0 <;> by_cases hr : s.self._root = 0 <;>
      by_cases hb : s.self._badFactory = 0 <;>
      simp [removeListeners, hg, hr, hb, hp, hp2, List.count_cons]

theorem destructor_count_rootShutdown (s : Sys) (p : Nat) :
    (added destructor s).count (.rootShutdown p) = if p = s.self._root ∧ p ≠ 0 then 1 else 0 := by
  rw [destructor_added]
  rcases eq_or_ne p s.self._root with hp | hp
  · subst hp
    by_cases hg : s.self._gui = 0 <;> by_cases hr : s.self._root = 0 <;>
      by_cases hb : s.self._badFactory = 0 <;>
      simp [removeListeners, hg, hr, hb, List.count_cons]
  · have hp2 := hp.symm
    by_cases hg : s.self._gui = 0 <;> by_cases hr : s.self._root = 0 <;>
      by_cases hb : s.self._badFactory = 0 <;>
      simp [removeListeners, hg, hr, hb, hp, hp2, List.count_cons]

theorem call_state (env : Env) (c : Call) (s : Sys) : (call env c s).2 = s.log c := by
  rw [call_apply]
  split_ifs <;> rfl

theorem call_self (env : Env) (c : Call) (s : Sys) : (call env c s).2.self = s.self := by
  rw [call_state]
  rfl

theorem call_added (env : Env) (c : Call) (s : Sys) : added (call env c) s = [c] :=
  added_eq (by rw [call_state]; rfl)

/-! ## The claims -/

/-- C1: when `width < 1` or `height < 1`, whatever `fullScreen` is, `Initialize` fails
with `ScreenDimensionsException`; the only trace entry it adds is that raise, so no
render root, GUI root or archive factory is constructed and no listener is registered;
the fields are unchanged, so an adapter that was not initialized stays so. -/
theorem C1_Initialize_rejects_bad_dimensions (env : Env) (width height : Int)
    (fullScreen : Bool) (s : Sys) (h : width < 1 ∨ height < 1) :
    (Initialize env width height fullScreen s).1 = .error .ScreenDimensionsException ∧
    added (Initialize env width height fullScreen) s = [.raise .ScreenDimensionsException] ∧
    (Initialize env width height fullScreen s).2.self = s.self ∧
    (Initialize env width height fullScreen s).2.heap = s.heap ∧
    (s.self._isInitialized = false →
      (Initialize env width height fullScreen s).2.self._isInitialized = false) := by
  have hr := Initialize_rejects env width height fullScreen s h
  refine ⟨by rw [hr], added_eq (by rw [hr]; rfl), by rw [hr]; rfl, by rw [hr]; rfl, ?_⟩
  intro hi
  rw [hr]
  exact hi

theorem C1_witness :
    ((0 : Int) < 1 ∨ (600 : Int) < 1) ∧
    (Initialize Env.quiet 0 600 true Sys.fresh).1 = .error .ScreenDimensionsException ∧
    added (Initialize Env.quiet 0 600 true) Sys.fresh = [.raise .ScreenDimensionsException] ∧
    (Initialize Env.quiet 0 600 true Sys.fresh).2.self = Sys.fresh.self ∧
    (Initialize Env.quiet 0 600 true Sys.fresh).2.heap = Sys.fresh.heap ∧
    (Sys.fresh.self._isInitialized = false →
      (Initialize Env.quiet 0 600 true Sys.fresh).2.self._isInitialized = false) :=
  ⟨by decide, C1_Initialize_rejects_bad_dimensions Env.quiet 0 600 true Sys.fresh (by decide)⟩

/-- C2: on an adapter whose `_isInitialized` is false, each of `Render`, `Update`,
`GetGui` and `GetHwnd` fails with `UnInitializedException`; the only trace entries it
adds are the logger call and the raise, so no call is made on the render root, the GUI
root or the event queue; the fields are unchanged. -/
theorem C2_guarded_calls_fail_when_uninitialized (env : Env) (s : Sys)
    (h : s.self._isInitialized = false) :
    ((Render env s).1 =
        .error (.UnInitializedException "OgreRenderer::Render - Renderer isn't initialized") ∧
      added (Render env) s =
        [.Fatal "OgreRenderer::Render - Renderer isn't initialized",
         .raise (.UnInitializedException "OgreRenderer::Render - Renderer isn't initialized")] ∧
      (Render env s).2.self = s.self) ∧
    ((Update env s).1 =
        .error (.UnInitializedException "OgreRenderer::Update - Renderer isn't initialized") ∧
      added (Update env) s =
        [.Fatal "OgreRenderer::Update - Renderer isn't initialized",
         .raise (.UnInitializedException "OgreRenderer::Update - Renderer isn't initialized")] ∧
      (Update env s).2.self = s.self) ∧
    ((GetGui s).1 =
        .error (.UnInitializedException "OgreRenderer::GetGui - Renderer isn't initialized") ∧
      added GetGui s =
        [.Fatal "OgreRenderer::GetGui - Renderer isn't initialized",
         .raise (.UnInitializedException "OgreRenderer::GetGui - Renderer isn't initialized")] ∧
      (GetGui s).2.self = s.self) ∧
    ((GetHwnd env s).1 =
        .error (.UnInitializedException "OgreRenderer::GetHwnd - Renderer isn't initialized") ∧
      added (GetHwnd env) s =
        [.Fatal "OgreRenderer::GetHwnd - Renderer isn't initialized",
         .raise (.UnInitializedException "OgreRenderer::GetHwnd - Renderer isn't initialized")] ∧
      (GetHwnd env s).2.self = s.self) := by
  have hR := Render_uninitialized env s h
  have hU := Update_uninitialized env s h
  have hG := GetGui_uninitialized s h
  have hH := GetHwnd_uninitialized env s h
  refine ⟨⟨by rw [hR], added_eq ?_, (Render_keeps env s).1⟩,
    ⟨by rw [hU], added_eq ?_, (Update_keeps env s).1⟩,
    ⟨by rw [hG], added_eq ?_, (GetGui_keeps s).1⟩,
    ⟨by rw [hH], added_eq ?_, (GetHwnd_keeps env s).1⟩⟩
  · rw [hR]; simp [Sys.log]
  · rw [hU]; simp [Sys.log]
  · rw [hG]; simp [Sys.log]
  · rw [hH]; simp [Sys.log]

theorem C2_witness :
    Sys.fresh.self._isInitialized = false ∧
    (Render Env.quiet Sys.fresh).1 =
      .error (.UnInitializedException "OgreRenderer::Render - Renderer isn't initialized") ∧
    (Update Env.quiet Sys.fresh).1 =
      .error (.UnInitializedException "OgreRenderer::Update - Renderer isn't initialized") ∧
    (GetGui Sys.fresh).1 =
      .error (.UnInitializedException "OgreRenderer::GetGui - Renderer isn't initialized") ∧
    (GetHwnd Env.quiet Sys.fresh).1 =
      .error (.UnInitializedException "OgreRenderer::GetHwnd - Renderer isn't initialized") :=
  ⟨rfl,
    (C2_guarded_calls_fail_when_uninitialized Env.quiet Sys.fresh rfl).1.1,
    (C2_guarded_calls_fail_when_uninitialized Env.quiet Sys.fresh rfl).2.1.1,
    (C2_guarded_calls_fail_when_uninitialized Env.quiet Sys.fresh rfl).2.2.1.1,
    (C2_guarded_calls_fail_when_uninitialized Env.quiet Sys.fresh rfl).2.2.2.1⟩

/-- C3 (the code at the failing input): with width 0, `Initialize` raises
`ScreenDimensionsException` and the raise is the only trace entry, with no `Fatal` call
of the logger before it; the sibling throw site in `GetGui` does log `Fatal` exactly
once before its raise. -/
theorem C3_screen_dimensions_error_is_not_logged :
    (Initialize Env.quiet 0 600 false Sys.fresh).1 = .error .ScreenDimensionsException ∧
    (Initialize Env.quiet 0 600 false Sys.fresh).2.trace =
      [.raise .ScreenDimensionsException] ∧
    (∀ msg, Call.Fatal msg ∉ (Initialize Env.quiet 0 600 false Sys.fresh).2.trace) ∧
    (GetGui Sys.fresh).2.trace =
      [.Fatal "OgreRenderer::GetGui - Renderer isn't initialized",
       .raise (.UnInitializedException "OgreRenderer::GetGui - Renderer isn't initialized")] := by
  have hr := Initialize_rejects Env.quiet 0 600 false Sys.fresh (Or.inl (by decide))
  refine ⟨by rw [hr], by rw [hr]; rfl, ?_, ?_⟩
  · intro msg
    rw [hr]
    simp [Sys.log, Sys.fresh]
  · rw [GetGui_uninitialized Sys.fresh rfl]
    rfl

/-- C4: for an adapter reached by any sequence of calls and initialized, both handles
are valid and the destructor returns after making, in this order, the five
`RemoveEventListener` calls (mouse pressed, mouse moved, mouse released, key down, key
up), the shutdown and release of the GUI root, the shutdown and release of the render
root, and the release of the archive factory when there is one; each root is released
exactly once and both handles end null. -/
theorem C4_destructor_releases_gui_then_root (env : Env) (ops : List Op)
    (h : (run env ops).self._isInitialized = true) :
    (run env ops).self._gui ≠ 0 ∧ (run env ops).self._root ≠ 0 ∧
    (destructor (run env ops)).1 = .ok () ∧
    added destructor (run env ops) =
      [ .RemoveEventListener .INPUT_MOUSE_PRESSED, .RemoveEventListener .INPUT_MOUSE_MOVED,
        .RemoveEventListener .INPUT_MOUSE_RELEASED, .RemoveEventListener .INPUT_KEY_DOWN,
        .RemoveEventListener .INPUT_KEY_UP,
        .guiShutdown (run env ops).self._gui, .deleteGui (run env ops).self._gui,
        .rootShutdown (run env ops).self._root, .deleteRoot (run env ops).self._root ] ++
      (if (run env ops).self._badFactory = 0 then []
        else [.deleteBadArchiveFactory (run env ops).self._badFactory]) ∧
    (∀ p, (added destructor (run env ops)).count (.deleteGui p) =
      if p = (run env ops).self._gui then 1 else 0) ∧
    (∀ p, (added destructor (run env ops)).count (.deleteRoot p) =
      if p = (run env ops).self._root then 1 else 0) ∧
    (destructor (run env ops)).2.self._gui = 0 ∧
    (destructor (run env ops)).2.self._root = 0 := by
  obtain ⟨h1, -, -, -⟩ := run_Inv env ops
  obtain ⟨hr, hg⟩ := h1 h
  have ha := destructor_added (run env ops)
  rw [if_neg hg, if_neg hr] at ha
  refine ⟨hg, hr, by rw [destructor_eq], ?_, ?_, ?_, by rw [destructor_eq], by rw [destructor_eq]⟩
  · rw [ha]; simp [removeListeners]
  · intro p
    rw [destructor_count_deleteGui]
    by_cases hp : p = (run env ops).self._gui
    · rw [if_pos hp, if_pos ⟨hp, by rw [hp]; exact hg⟩]
    · rw [if_neg hp, if_neg (fun hc => hp hc.1)]
  · intro p
    rw [destructor_count_deleteRoot]
    by_cases hp : p = (run env ops).self._root
    · rw [if_pos hp, if_pos ⟨hp, by rw [hp]; exact hr⟩]
    · rw [if_neg hp, if_neg (fun hc => hp hc.1)]

theorem C4_witness :
    (run Env.quiet [.Initialize 800 600 false]).self._isInitialized = true ∧
    added destructor (run Env.quiet [.Initialize 800 600 false]) =
      [ .RemoveEventListener .INPUT_MOUSE_PRESSED, .RemoveEventListener .INPUT_MOUSE_MOVED,
        .RemoveEventListener .INPUT_MOUSE_RELEASED, .RemoveEventListener .INPUT_KEY_DOWN,
        .RemoveEventListener .INPUT_KEY_UP,
        .guiShutdown (run Env.quiet [.Initialize 800 600 false]).self._gui,
        .deleteGui (run Env.quiet [.Initialize 800 600 false]).self._gui,
        .rootShutdown (run Env.quiet [.Initialize 800 600 false]).self._root,
        .deleteRoot (run Env.quiet [.Initialize 800 600 false]).self._root ] ++
      (if (run Env.quiet [.Initialize 800 600 false]).self._badFactory = 0 then []
        else [.deleteBadArchiveFactory
          (run Env.quiet [.Initialize 800 600 false]).self._badFactory]) :=
  ⟨by decide,
    (C4_destructor_releases_gui_then_root Env.quiet [.Initialize 800 600 false]
      (by decide)).2.2.2.1⟩

/-- C5: in every state where the GUI-root handle or the render-root handle is null,
the destructor returns; it first makes the five `RemoveEventListener` calls; it makes
no shutdown or release call on a null pointer; a handle is shut down and released
exactly once when it is not null, and nothing else is shut down or released as a root;
all handles end null. -/
theorem C5_destructor_safe_on_null_handles (s : Sys)
    (h : s.self._gui = 0 ∨ s.self._root = 0) :
    (destructor s).1 = .ok () ∧
    added destructor s =
      removeListeners ++
        ((if s.self._gui = 0 then
            (if s.self._root = 0 then []
              else [.rootShutdown s.self._root, .deleteRoot s.self._root])
          else [.guiShutdown s.self._gui, .deleteGui s.self._gui]) ++
         (if s.self._badFactory = 0 then []
           else [.deleteBadArchiveFactory s.self._badFactory])) ∧
    (Call.guiShutdown 0 ∉ added destructor s ∧ Call.deleteGui 0 ∉ added destructor s ∧
      Call.rootShutdown 0 ∉ added destructor s ∧ Call.deleteRoot 0 ∉ added destructor s ∧
      Call.deleteBadArchiveFactory 0 ∉ added destructor s) ∧
    (∀ p, (added destructor s).count (.guiShutdown p) =
      if p = s.self._gui ∧ p ≠ 0 then 1 else 0) ∧
    (∀ p, (added destructor s).count (.deleteGui p) =
      if p = s.self._gui ∧ p ≠ 0 then 1 else 0) ∧
    (∀ p, (added destructor s).count (.rootShutdown p) =
      if p = s.self._root ∧ p ≠ 0 then 1 else 0) ∧
    (∀ p, (added destructor s).count (.deleteRoot p) =
      if p = s.self._root ∧ p ≠ 0 then 1 else 0) ∧
    (destructor s).2.self._gui = 0 ∧ (destructor s).2.self._root = 0 ∧
    (destructor s).2.self._badFactory = 0 := by
  refine ⟨by rw [destructor_eq], ?_, ⟨?_, ?_, ?_, ?_, ?_⟩, destructor_count_guiShutdown s,
    destructor_count_deleteGui s, destructor_count_rootShutdown s,
    destructor_count_deleteRoot s, by rw [destructor_eq], by rw [destructor_eq],
    by rw [destructor_eq]⟩
  · rw [destructor_added]
    rcases h with h | h
    · simp [h]
    · by_cases hg : s.self._gui = 0 <;> simp [h, hg]
  · rw [← List.count_eq_zero, destructor_count_guiShutdown]
    simp
  · rw [← List.count_eq_zero, destructor_count_deleteGui]
    simp
  · rw [← List.count_eq_zero, destructor_count_rootShutdown]
    simp
  · rw [← List.count_eq_zero, destructor_count_deleteRoot]
    simp
  · rw [destructor_added]
    by_cases hg : s.self._gui = 0 <;> by_cases hr : s.self._root = 0 <;>
      by_cases hb : s.self._badFactory = 0 <;>
      simp [removeListeners, hg, hr, hb] <;> omega

theorem C5_witness :
    (Sys.aborted.self._gui = 0 ∨ Sys.aborted.self._root = 0) ∧
    (destructor Sys.aborted).1 = .ok () ∧
    added destructor Sys.aborted =
      removeListeners ++ [.rootShutdown 1, .deleteRoot 1] :=
  ⟨by decide,
    (C5_destructor_safe_on_null_handles Sys.aborted (by decide)).1,
    (C5_destructor_safe_on_null_handles Sys.aborted (by decide)).2.1⟩

/-- C8: for an adapter reached by any sequence of calls and initialized, the GUI handle
is valid and each handler adds exactly one trace entry, the matching injection call on
the GUI root: `OnMouseMoved` passes the absolute X, Y and Z; `OnMousePressed` and
`OnMouseReleased` pass the absolute X and Y and the mouse-button id; `OnKeyDown` and
`OnKeyUp` pass the key code.  The values passed are the fields of the event, and the
fields of the adapter are unchanged. -/
theorem C8_handlers_forward_one_injection (env : Env) (ops : List Op)
    (mouse : MouseEventData) (key : KeyEventData)
    (h : (run env ops).self._isInitialized = true) :
    (run env ops).self._gui ≠ 0 ∧
    added (OnMouseMoved env mouse) (run env ops) =
      [.injectMouseMove (run env ops).self._gui mouse.X_abs mouse.Y_abs mouse.Z_abs] ∧
    added (OnMousePressed env mouse) (run env ops) =
      [.injectMousePress (run env ops).self._gui mouse.X_abs mouse.Y_abs mouse.MouseButtonId] ∧
    added (OnMouseReleased env mouse) (run env ops) =
      [.injectMouseRelease (run env ops).self._gui mouse.X_abs mouse.Y_abs
        mouse.MouseButtonId] ∧
    added (OnKeyDown env key) (run env ops) =
      [.injectKeyPress (run env ops).self._gui key.KeyCode] ∧
    added (OnKeyUp env key) (run env ops) =
      [.injectKeyRelease (run env ops).self._gui key.KeyCode] ∧
    (OnMouseMoved env mouse (run env ops)).2.self = (run env ops).self ∧
    (OnMousePressed env mouse (run env ops)).2.self = (run env ops).self ∧
    (OnMouseReleased env mouse (run env ops)).2.self = (run env ops).self ∧
    (OnKeyDown env key (run env ops)).2.self = (run env ops).self ∧
    (OnKeyUp env key (run env ops)).2.self = (run env ops).self := by
  obtain ⟨h1, -, -, -⟩ := run_Inv env ops
  refine ⟨(h1 h).2, ?_, ?_, ?_, ?_, ?_, ?_, ?_, ?_, ?_, ?_⟩
  · exact call_added env _ _
  · exact call_added env _ _
  · exact call_added env _ _
  · exact call_added env _ _
  · exact call_added env _ _
  · exact call_self env _ _
  · exact call_self env _ _
  · exact call_self env _ _
  · exact call_self env _ _
  · exact call_self env _ _

theorem C8_witness :
    (run Env.quiet [.Initialize 800 600 false]).self._isInitialized = true ∧
    added (OnMouseMoved Env.quiet ⟨10, 20, 3, 1⟩) (run Env.quiet [.Initialize 800 600 false]) =
      [.injectMouseMove (run Env.quiet [.Initialize 800 600 false]).self._gui 10 20 3] ∧
    added (OnKeyDown Env.quiet ⟨65⟩) (run Env.quiet [.Initialize 800 600 false]) =
      [.injectKeyPress (run Env.quiet [.Initialize 800 600 false]).self._gui 65] :=
  ⟨by decide,
    (C8_handlers_forward_one_injection Env.quiet [.Initialize 800 600 false] ⟨10, 20, 3, 1⟩
      ⟨65⟩ (by decide)).2.1,
    (C8_handlers_forward_one_injection Env.quiet [.Initialize 800 600 false] ⟨10, 20, 3, 1⟩
      ⟨65⟩ (by decide)).2.2.2.2.1⟩

/-! ### Repeated `Update` -/

theorem Update_count (env : Env) (s : Sys) (h : s.self._isInitialized = true) :
    (Update env s).2.trace.count quitEvent =
      s.trace.count quitEvent + if closedDuringUpdate env s then 1 else 0 := by
  rw [Update_initialized env s h]
  unfold closedDuringUpdate quitEvent
  split_ifs <;> simp [List.count_cons]

theorem Update_length (env : Env) (s : Sys) (h : s.self._isInitialized = true) :
    s.trace.length ≤ (Update env s).2.trace.length := by
  rw [Update_initialized env s h]
  simp

theorem Update_repeated (env : Env) (k : Nat) (s : Sys) (h : s.self._isInitialized = true)
    (hc : ∀ t, s.trace.length ≤ t → env.closed t = true) :
    ((List.replicate k Op.Update).foldl (step env) s).trace.count quitEvent =
      s.trace.count quitEvent + k := by
  induction k generalizing s with
  | zero => rfl
  | succ k ih =>
    rw [List.replicate_succ, List.foldl_cons]
    have h1 : (step env s Op.Update).self._isInitialized = true := by
      show (Update env s).2.self._isInitialized = true
      rw [(Update_keeps env s).1]
      exact h
    have h2 : ∀ t, (step env s Op.Update).trace.length ≤ t → env.closed t = true := by
      intro t ht
      exact hc t (le_trans (Update_length env s h) ht)
    rw [ih _ h1 h2]
    show (Update env s).2.trace.count quitEvent + k = _
    rw [Update_count env s h]
    have : closedDuringUpdate env s = true := hc _ (Nat.le_succ _)
    rw [if_pos this]
    omega

/-- C9: for an adapter reached by any sequence of calls and initialized, one `Update`
call returns and queues exactly one `GAME_QUIT` event when `isClosed( )` answers true
during that call and none when it answers false; and when the window stays closed,
`k` consecutive `Update` calls queue exactly `k` `GAME_QUIT` events. -/
theorem C9_Update_queues_quit_on_every_call (env : Env) (ops : List Op)
    (h : (run env ops).self._isInitialized = true) :
    (Update env (run env ops)).1 = .ok () ∧
    (added (Update env) (run env ops)).count quitEvent =
      (if closedDuringUpdate env (run env ops) then 1 else 0) ∧
    ∀ k : Nat, (∀ t, (run env ops).trace.length ≤ t → env.closed t = true) →
      (run env (ops ++ List.replicate k Op.Update)).trace.count quitEvent =
        (run env ops).trace.count quitEvent + k := by
  refine ⟨by rw [Update_initialized env _ h], ?_, ?_⟩
  · have ha : added (Update env) (run env ops) =
        [.getAutoCreatedWindow (run env ops).self._root,
          .isClosed (env.windowOf (run env ops).self._root)] ++
          if env.closed ((run env ops).trace.length + 1) then [.QueueEvent .GAME_QUIT]
          else [] :=
      added_eq (by rw [Update_initialized env _ h])
    rw [ha]
    unfold closedDuringUpdate quitEvent
    split_ifs <;> simp [List.count_cons]
  · intro k hc
    unfold run
    rw [List.foldl_append]
    exact Update_repeated env k _ h hc

theorem C9_witness :
    (run Env.windowClosed [.Initialize 800 600 false]).self._isInitialized = true ∧
    (added (Update Env.windowClosed) (run Env.windowClosed [.Initialize 800 600 false])).count
      quitEvent =
      (if closedDuringUpdate Env.windowClosed (run Env.windowClosed [.Initialize 800 600 false])
        then 1 else 0) ∧
    (run Env.windowClosed ([.Initialize 800 600 false] ++ List.replicate 3 Op.Update)).trace.count
      quitEvent =
      (run Env.windowClosed [.Initialize 800 600 false]).trace.count quitEvent + 3 :=
  ⟨by decide,
    (C9_Update_queues_quit_on_every_call Env.windowClosed [.Initialize 800 600 false]
      (by decide)).2.1,
    (C9_Update_queues_quit_on_every_call Env.windowClosed [.Initialize 800 600 false]
      (by decide)).2.2 3 (fun _ _ => rfl)⟩

/-! ### The two handles -/

theorem step_Clean (env : Env) (hq : ∀ t c, env.fails t c = false) (s : Sys) (op : Op)
    (h : Clean s.self) : Clean (step env s op).self := by
  cases op with
  | Initialize width height fullScreen =>
    show Clean (Initialize env width height fullScreen s).2.self
    by_cases hbad : width < 1 ∨ height < 1
    · rw [Initialize_rejects env width height fullScreen s hbad]
      exact h
    · have hok := Initialize_quiet env hq width height fullScreen s (by omega) (by omega)
      obtain ⟨-, hself, -⟩ := Initialize_ok env width height fullScreen s hok
      rw [hself]
      exact Or.inr ⟨by simp, by simp, rfl⟩
  | Render => show Clean (Render env s).2.self; rw [(Render_keeps env s).1]; exact h
  | Update => show Clean (Update env s).2.self; rw [(Update_keeps env s).1]; exact h
  | GetGui => show Clean (GetGui s).2.self; rw [(GetGui_keeps s).1]; exact h
  | GetHwnd => show Clean (GetHwnd env s).2.self; rw [(GetHwnd_keeps env s).1]; exact h

theorem foldl_step_Clean (env : Env) (hq : ∀ t c, env.fails t c = false) (ops : List Op)
    (s : Sys) (h : Clean s.self) : Clean (ops.foldl (step env) s).self := by
  induction ops generalizing s with
  | nil => exact h
  | cons op rest ih => exact ih _ (step_Clean env hq s op h)

/-- C6 (counterexample): when `loadPlugin` throws, `Initialize` leaves the render-root
handle valid and the GUI-root handle null, with the adapter not initialized: the
handles are neither both null nor both valid. -/
theorem C6_partial_state_is_observable :
    (run Env.pluginMissing [.Initialize 800 600 false]).self._root = 1 ∧
    (run Env.pluginMissing [.Initialize 800 600 false]).self._gui = 0 ∧
    (run Env.pluginMissing [.Initialize 800 600 false]).self._isInitialized = false ∧
    ¬ (((run Env.pluginMissing [.Initialize 800 600 false]).self._root = 0 ∧
        (run Env.pluginMissing [.Initialize 800 600 false]).self._gui = 0) ∨
       ((run Env.pluginMissing [.Initialize 800 600 false]).self._root ≠ 0 ∧
        (run Env.pluginMissing [.Initialize 800 600 false]).self._gui ≠ 0)) := by
  decide

/-- C6 (amended): in every state reached by a sequence of `Initialize`, `Render`,
`Update`, `GetGui`, `GetHwnd` calls, an initialized adapter has both handles valid, and
a valid GUI-root handle comes with a valid render-root handle; when no engine call
throws, the two handles are both null or both valid, and both valid exactly when the
adapter is initialized. -/
theorem C6_handles_consistent (env : Env) (ops : List Op) :
    ((run env ops).self._isInitialized = true →
      (run env ops).self._root ≠ 0 ∧ (run env ops).self._gui ≠ 0) ∧
    ((run env ops).self._gui ≠ 0 → (run env ops).self._root ≠ 0) ∧
    ((∀ t c, env.fails t c = false) →
      (((run env ops).self._root = 0 ∧ (run env ops).self._gui = 0) ∨
       ((run env ops).self._root ≠ 0 ∧ (run env ops).self._gui ≠ 0)) ∧
      (((run env ops).self._root ≠ 0 ∧ (run env ops).self._gui ≠ 0) ↔
        (run env ops).self._isInitialized = true)) := by
  obtain ⟨h1, h2, -, -⟩ := run_Inv env ops
  refine ⟨h1, h2, fun hq => ?_⟩
  have hc : Clean (run env ops).self :=
    foldl_step_Clean env hq ops _ (Or.inl ⟨rfl, rfl, rfl⟩)
  rcases hc with ⟨a, b, c⟩ | ⟨a, b, c⟩
  · refine ⟨Or.inl ⟨a, b⟩, fun hh => absurd a hh.1, fun hh => ?_⟩
    rw [c] at hh
    cases hh
  · exact ⟨Or.inr ⟨a, b⟩, fun _ => c, fun _ => ⟨a, b⟩⟩

theorem C6_witness :
    ((run Env.quiet [.Initialize 800 600 false, .Render]).self._root ≠ 0 ∧
      (run Env.quiet [.Initialize 800 600 false, .Render]).self._gui ≠ 0) ↔
    (run Env.quiet [.Initialize 800 600 false, .Render]).self._isInitialized = true :=
  ((C6_handles_consistent Env.quiet [.Initialize 800 600 false, .Render]).2.2
    (fun _ _ => rfl)).2

/-! ### A second `Initialize` -/

theorem filter_resource (p : Call → Bool) (hp : ∀ c, c.isResourceCall = true → p c = false)
    (R : List Call) (hR : ∀ c ∈ R, c.isResourceCall = true) : R.filter p = [] := by
  rw [List.filter_eq_nil_iff]
  intro c hc
  rw [hp c (hR c hc)]
  simp

theorem resource_not_setConfigOption (c : Call) (h : c.isResourceCall = true) :
    c.isSetConfigOption = false := by
  cases c <;> simp_all [Call.isResourceCall, Call.isSetConfigOption]

theorem initCalls_setConfigOption (env : Env) (width height : Int) (fullScreen : Bool)
    (h : Nat) (R : List Call) (hR : ∀ c ∈ R, c.isResourceCall = true) :
    (initCallsBefore h ++ R ++ initCallsAfter env width height fullScreen h).filter
        Call.isSetConfigOption =
      [ .setConfigOption env.renderSystem "Full Screen" (if fullScreen then "Yes" else "No"),
        .setConfigOption env.renderSystem "Video Mode" (videoModeDesc width height) ] := by
  rw [List.filter_append, List.filter_append,
    filter_resource _ resource_not_setConfigOption R hR]
  simp [initCallsBefore, initCallsAfter, List.filter_cons, Call.isSetConfigOption]

theorem digitChar_value (m : Nat) (h : m < 10) :
    (Nat.digitChar m).toNat - 48 = m ∧ (Nat.digitChar m).isDigit = true := by
  interval_cases m <;> exact ⟨rfl, rfl⟩

theorem decimalValue_snoc (L : List Char) (c : Char) :
    decimalValue (L ++ [c]) = 10 * decimalValue L + (c.toNat - 48) := by
  simp [decimalValue, List.foldl_append]

theorem toDigitsCore_spec (fuel : Nat) : ∀ (n : Nat) (ds : List Char), n < fuel →
    ∃ L : List Char, Nat.toDigitsCore 10 fuel n ds = L ++ ds ∧ decimalValue L = n ∧
      ∀ c ∈ L, c.isDigit = true := by
  induction fuel with
  | zero => intro n ds h; omega
  | succ fuel ih =>
    intro n ds h
    obtain ⟨hv, hd⟩ := digitChar_value (n % 10) (Nat.mod_lt _ (by decide))
    by_cases h0 : n / 10 = 0
    · refine ⟨[Nat.digitChar (n % 10)], by simp [Nat.toDigitsCore, h0], ?_, ?_⟩
      · have := decimalValue_snoc [] (Nat.digitChar (n % 10))
        simp only [List.nil_append] at this
        rw [this, hv]
        simp [decimalValue]
        omega
      · intro c hc
        rw [List.mem_singleton.1 hc]
        exact hd
    · obtain ⟨L, hL, hval, hdig⟩ := ih (n / 10) (Nat.digitChar (n % 10) :: ds) (by omega)
      refine ⟨L ++ [Nat.digitChar (n % 10)], ?_, ?_, ?_⟩
      · simp [Nat.toDigitsCore, h0, hL]
      · rw [decimalValue_snoc, hval, hv]
        omega
      · intro c hc
        rcases List.mem_append.1 hc with hc | hc
        · exact hdig c hc
        · rw [List.mem_singleton.1 hc]
          exact hd

theorem toString_nat_spec (n : Nat) :
    decimalValue (toString n).data = n ∧ ∀ c ∈ (toString n).data, c.isDigit = true := by
  obtain ⟨L, hL, hval, hdig⟩ := toDigitsCore_spec (n + 1) n [] (Nat.lt_succ_self n)
  have : (toString n).data = L := by
    show (Nat.repr n).data = L
    simp [Nat.repr, Nat.toDigits, hL, List.asString]
  rw [this]
  exact ⟨hval, hdig⟩

theorem toString_int_of_pos (w : Int) (hw : 1 ≤ w) : toString w = toString w.toNat := by
  obtain ⟨n, rfl⟩ := Int.eq_ofNat_of_zero_le (by omega : 0 ≤ w)
  rfl

theorem append_cons_cancel {a : Char} : ∀ {x₁ x₂ z₁ z₂ : List Char}, a ∉ x₁ → a ∉ x₂ →
    x₁ ++ a :: z₁ = x₂ ++ a :: z₂ → x₁ = x₂ ∧ z₁ = z₂
  | [], [], _, _, _, _, h => ⟨rfl, by simpa using h⟩
  | [], b :: x₂, _, _, _, h2, h => by
    simp only [List.nil_append, List.cons_append, List.cons.injEq] at h
    exact absurd (List.mem_cons.2 (Or.inl h.1)) h2
  | b :: x₁, [], _, _, h1, _, h => by
    simp only [List.nil_append, List.cons_append, List.cons.injEq] at h
    exact absurd (List.mem_cons.2 (Or.inl h.1.symm)) h1
  | b :: x₁, c :: x₂, z₁, z₂, h1, h2, h => by
    simp only [List.cons_append, List.cons.injEq] at h
    obtain ⟨hx, hz⟩ := append_cons_cancel (fun hm => h1 (List.mem_cons_of_mem _ hm))
      (fun hm => h2 (List.mem_cons_of_mem _ hm)) h.2
    exact ⟨by rw [h.1, hx], hz⟩

theorem space_not_digit (n : Nat) : ' ' ∉ (toString n).data := by
  intro h
  have := (toString_nat_spec n).2 _ h
  exact absurd this (by decide)

theorem videoModeDesc_injective (w h w2 h2 : Int) (hw : 1 ≤ w) (hh : 1 ≤ h)
    (hw2 : 1 ≤ w2) (hh2 : 1 ≤ h2) (heq : videoModeDesc w h = videoModeDesc w2 h2) :
    w = w2 ∧ h = h2 := by
  unfold videoModeDesc at heq
  rw [toString_int_of_pos w hw, toString_int_of_pos h hh, toString_int_of_pos w2 hw2,
    toString_int_of_pos h2 hh2] at heq
  have hd := congrArg String.data heq
  simp only [String.data_append] at hd
  simp only [List.append_assoc, List.cons_append, List.nil_append] at hd
  obtain ⟨ha, hb⟩ := append_cons_cancel (space_not_digit _) (space_not_digit _) hd
  simp only [List.cons.injEq, true_and] at hb
  obtain ⟨hc, -⟩ := append_cons_cancel (space_not_digit _) (space_not_digit _) hb
  have v1 := (toString_nat_spec w.toNat).1
  have v2 := (toString_nat_spec h.toNat).1
  rw [ha, (toString_nat_spec w2.toNat).1] at v1
  rw [hc, (toString_nat_spec h2.toNat).1] at v2
  omega

/-- C10: for `width ≥ 1` and `height ≥ 1` and either value of `fullScreen`, `Initialize`
does not fail with `ScreenDimensionsException` and goes on to construct the render
root; it returns normally when no engine call throws; when it returns normally the
render-system options it has set are exactly two, in this order: `"Full Screen"` to
`"Yes"` when `fullScreen` is true and `"No"` otherwise, and `"Video Mode"` to the
decimal digits of `width`, then `" x "`, then the decimal digits of `height`, then
`" @ 32-bit colour"`; distinct (width, height) pairs give distinct texts. -/
theorem C10_Initialize_sets_two_options (env : Env) (width height : Int) (fullScreen : Bool)
    (s : Sys) (hw : 1 ≤ width) (hh : 1 ≤ height) :
    (Initialize env width height fullScreen s).1 ≠ .error .ScreenDimensionsException ∧
    (∃ T, added (Initialize env width height fullScreen) s = .newRoot (s.heap + 1) :: T) ∧
    ((∀ t c, env.fails t c = false) →
      (Initialize env width height fullScreen s).1 = .ok ()) ∧
    ((Initialize env width height fullScreen s).1 = .ok () →
      (added (Initialize env width height fullScreen) s).filter Call.isSetConfigOption =
        [ .setConfigOption env.renderSystem "Full Screen" (if fullScreen then "Yes" else "No"),
          .setConfigOption env.renderSystem "Video Mode"
            (toString width ++ " x " ++ toString height ++ " @ 32-bit colour") ]) ∧
    ((decimalValue (toString width).data : Int) = width ∧
      ∀ c ∈ (toString width).data, c.isDigit = true) ∧
    ((decimalValue (toString height).data : Int) = height ∧
      ∀ c ∈ (toString height).data, c.isDigit = true) ∧
    (∀ width2 height2 : Int, 1 ≤ width2 → 1 ≤ height2 →
      videoModeDesc width height = videoModeDesc width2 height2 →
      width = width2 ∧ height = height2) := by
  obtain ⟨h1, h2⟩ := Initialize_accepts env width height fullScreen s hw hh
  refine ⟨h1, h2, fun hq => Initialize_quiet env hq width height fullScreen s hw hh, ?_, ?_, ?_,
    fun w2 h2 hw2 hh2 heq => videoModeDesc_injective width height w2 h2 hw hh hw2 hh2 heq⟩
  · intro hok
    obtain ⟨-, -, -, R, hR, ha⟩ := Initialize_ok env width height fullScreen s hok
    rw [ha]
    exact initCalls_setConfigOption env width height fullScreen s.heap R hR
  · rw [toString_int_of_pos width hw]
    refine ⟨?_, (toString_nat_spec width.toNat).2⟩
    rw [(toString_nat_spec width.toNat).1]
    omega
  · rw [toString_int_of_pos height hh]
    refine ⟨?_, (toString_nat_spec height.toNat).2⟩
    rw [(toString_nat_spec height.toNat).1]
    omega

theorem C10_witness :
    ((1 : Int) ≤ 800 ∧ (1 : Int) ≤ 600) ∧
    (Initialize Env.quiet 800 600 false Sys.fresh).1 = .ok () ∧
    (added (Initialize Env.quiet 800 600 false) Sys.fresh).filter Call.isSetConfigOption =
      [ .setConfigOption Env.quiet.renderSystem "Full Screen" "No",
        .setConfigOption Env.quiet.renderSystem "Video Mode" "800 x 600 @ 32-bit colour" ] :=
  ⟨by decide, rfl,
    (C10_Initialize_sets_two_options Env.quiet 800 600 false Sys.fresh (by decide)
      (by decide)).2.2.2.1 rfl⟩

end Viper
